import Mathlib

/-!
Verification development for the slot-analyzer capture pipeline.

The definitions below are a shallow embedding of the Python sources
`src/slot_analyzer/services/capture/capture.py`,
`src/slot_analyzer/services/capture/screenshot.py` and
`src/slot_analyzer/config/config.py`.  Python dictionaries holding
string data become association lists, `datetime` values become a record
of calendar fields, wall-clock milliseconds become integers, and each
fallible collaborator call (raw screen grab, file save, broker publish,
component start/stop) is passed in as an explicit oracle value so the
code's own control flow around it can be reproduced exactly.
-/

/-- Python dict with string keys, as read by the capture handlers.  The
handlers only ever test truthiness (emptiness) and store the dict, so an
association list of string pairs is a faithful carrier. -/
abbrev Dict := List (String × String)

/-- Embedding of `datetime`: the calendar fields used by
`strftime("%Y%m%d-%H%M%S")`. -/
structure PyDateTime where
  year : Nat
  month : Nat
  day : Nat
  hour : Nat
  minute : Nat
  second : Nat
deriving Repr, DecidableEq

/-- Zero padding to a fixed width, as Python's `%Y`, `%m`, ... directives
pad their numeric fields. -/
def padZero (w : Nat) (n : Nat) : String :=
  let s := toString n
  if s.length < w then String.mk (List.replicate (w - s.length) '0') ++ s else s

/-- One `strftime` directive character, restricted to the directives the
capture code uses. -/
def strftimeDirective (c : Char) (t : PyDateTime) : String :=
  if c = 'Y' then padZero 4 t.year
  else if c = 'm' then padZero 2 t.month
  else if c = 'd' then padZero 2 t.day
  else if c = 'H' then padZero 2 t.hour
  else if c = 'M' then padZero 2 t.minute
  else if c = 'S' then padZero 2 t.second
  else String.singleton c

/-- Interpreter for a `strftime` format string: a `%` introduces a
directive, every other character is copied verbatim. -/
def strftime (fmt : List Char) (t : PyDateTime) : String :=
  match fmt with
  | [] => ""
  | '%' :: c :: rest => strftimeDirective c t ++ strftime rest t
  | c :: rest => String.singleton c ++ strftime rest t

/-- The session-id format string of `SessionInfo.generate_session_id`. -/
def sessionIdFormat : List Char := ['%', 'Y', '%', 'm', '%', 'd', '-', '%', 'H', '%', 'M', '%', 'S']

/-- Embedding of `SessionInfo.generate_session_id` for the case where
`start_time` is already set (when absent the code first sets it to the
current time and then proceeds identically, so the start time is a
parameter here). -/
def generate_session_id (casino_name game_name : String) (start_time : PyDateTime) : String :=
  casino_name ++ "-" ++ game_name ++ "-" ++ strftime sessionIdFormat start_time

/-- Embedding of the `CaptureData` pydantic model: `request_data` is a
required field (type `Dict`), the other payloads are `Optional`. -/
structure CaptureData where
  timestamp : Nat
  request_data : Dict
  response_data : Option Dict
  screenshot_path : Option String
  websocket_data : Option Dict
deriving Repr, DecidableEq

/-- Default `max_capture_queue` from `CaptureSettings` in `config.py`:
"Maximum number of captures to queue before dropping". -/
def max_capture_queue : Nat := 100

/-- The mutable state the three proxy-event handlers of
`SlotGameCapture` touch: the `captures` list and the `_running` flag. -/
structure CaptureState where
  captures : List CaptureData
  running : Bool
deriving Repr, DecidableEq

/-- Embedding of `SlotGameCapture._handle_request`.  The screenshot
attempt is passed in as `shot` (`none` covers both a throttled capture
and a capture whose exception the handler swallows), `t` is the
`datetime.now()` reading.  An empty dict fails the handler's validation
and is logged and discarded; otherwise a record is appended with the
request data set and no response data. -/
def handle_request (st : CaptureState) (request_data : Dict) (shot : Option String) (t : Nat) : CaptureState :=
  if st.running = false then st
  else if request_data = [] then st
  else { st with captures := st.captures ++ [{ timestamp := t, request_data := request_data, response_data := none, screenshot_path := shot, websocket_data := none }] }

/-- Assignment `self.captures[-1].response_data = response_data`:
replace the response data of the last record of the list. -/
def setLastResponse (l : List CaptureData) (d : Dict) : List CaptureData :=
  match l with
  | [] => []
  | [c] => [{ c with response_data := some d }]
  | c :: rest => c :: setLastResponse rest d

/-- Embedding of `SlotGameCapture._handle_response`: a response received
while not running or with no pending captures is logged and discarded;
an empty dict fails validation; otherwise the response is written into
the most recent capture record, unconditionally. -/
def handle_response (st : CaptureState) (response_data : Dict) : CaptureState :=
  if st.running = false then st
  else if st.captures = [] then st
  else if response_data = [] then st
  else { st with captures := setLastResponse st.captures response_data }

/-- Embedding of `SlotGameCapture._handle_websocket`: a non-empty dict
produces a new record whose `request_data` is the empty dict and whose
`websocket_data` carries the payload. -/
def handle_websocket (st : CaptureState) (websocket_data : Dict) (shot : Option String) (t : Nat) : CaptureState :=
  if st.running = false then st
  else if websocket_data = [] then st
  else { st with captures := st.captures ++ [{ timestamp := t, request_data := [], response_data := none, screenshot_path := shot, websocket_data := some websocket_data }] }

/-- One normalized proxy event as dispatched to the session's handlers,
carrying the screenshot-attempt outcome and timestamp the handler would
observe. -/
inductive ProxyEvent where
  | request (data : Dict) (shot : Option String) (t : Nat)
  | response (data : Dict)
  | websocket (data : Dict) (shot : Option String) (t : Nat)
deriving Repr, DecidableEq

/-- Dispatch of one proxy event to the matching handler. -/
def stepEvent (st : CaptureState) (e : ProxyEvent) : CaptureState :=
  match e with
  | .request d shot t => handle_request st d shot t
  | .response d => handle_response st d
  | .websocket d shot t => handle_websocket st d shot t

/-- Running a whole event trace through the handlers. -/
def runEvents (st : CaptureState) (evs : List ProxyEvent) : CaptureState :=
  evs.foldl stepEvent st

/-- Fresh handler state of a running session: empty captures list. -/
def initialState : CaptureState := { captures := [], running := true }

/-- Grayscale image as produced by `screenshot.convert("L")`: dimensions
plus a luminance value for each coordinate. -/
structure GrayImage where
  width : Nat
  height : Nat
  pix : Nat → Nat → Nat

/-- Row-major list of all luminance values of the image, the sequence
`getextrema` ranges over. -/
def pixList (img : GrayImage) : List Nat :=
  (List.range img.height).flatMap fun y => (List.range img.width).map fun x => img.pix x y

/-- Embedding of PIL's `getextrema` on the luminance channel: the
minimum and maximum pixel value. -/
def getextrema (img : GrayImage) : Nat × Nat :=
  match pixList img with
  | [] => (0, 0)
  | p :: rest => (rest.foldl min p, rest.foldl max p)

/-- Embedding of `ScreenshotManager._validate_screenshot`: reject images
under 100 pixels in either dimension, then reject solid-color images
(luminance minimum equal to luminance maximum). -/
def validate_screenshot (img : GrayImage) : Bool :=
  if img.width < 100 || img.height < 100 then false
  else
    let e := getextrema img
    if e.1 = e.2 then false else true

/-- State of a `ScreenshotManager`: throttle interval, last-capture
reading (both in milliseconds) and the running flag.  The code
initializes `_last_capture` to `0`. -/
structure ShotState where
  throttle_ms : Int
  last_capture : Int
  running : Bool
deriving Repr, DecidableEq

/-- An exception raised by a collaborator inside the `try` block of
`ScreenshotManager.capture` (`pyautogui.screenshot` or `Image.save`). -/
inductive PyError where
  | err (msg : String)
deriving Repr, DecidableEq

/-- Embedding of `ScreenshotManager.capture`.  `now` is the
`time.time() * 1000` reading, `raw` the outcome of the raw screen grab,
`save` the outcome of writing the PNG, `path` the file name the call
would generate.  The result is an `Except` so that an escaping exception
is representable: the code's `try`/`except` catches every exception from
the grab, the validation and the save, logs it, and returns `None`, so
the error branch of the result is in fact never produced. -/
def capture (st : ShotState) (now : Int) (raw : Except PyError GrayImage) (save : Except PyError Unit) (path : String) : Except PyError (Option String × ShotState) :=
  if st.running = false then .ok (none, st)
  else if now - st.last_capture < st.throttle_ms then .ok (none, st)
  else
    let body : Except PyError (Option String × ShotState) :=
      Except.bind raw fun img =>
        if validate_screenshot img = false then
          Except.ok (none, st)
        else
          Except.bind save fun _ =>
            Except.ok (some path, { st with last_capture := now })
    match body with
    | .ok r => .ok r
    | .error _ => .ok (none, st)

/-- The error raised out of `start_capture`: the already-running guard, a
wrapped proxy start failure, or a wrapped screenshot start failure. -/
inductive StartErr where
  | alreadyRunning
  | proxyErr
  | screenshotErr
deriving Repr, DecidableEq

/-- The error raised out of `stop_capture`: every internal stop or
cleanup failure is re-wrapped by the outer handler into one
`CaptureError("Failed to stop capture session cleanly")`. -/
inductive StopErr where
  | captureErr
deriving Repr, DecidableEq

/-- Lifecycle state of one `SlotGameCapture` session: the `_running`
flag, which collaborators are currently started, the pending `captures`
queue and the `_failed_captures` retry list. -/
structure SessionState where
  running : Bool
  proxyStarted : Bool
  screenshotActive : Bool
  captures : List CaptureData
  failedCaptures : List CaptureData
deriving Repr, DecidableEq

/-- Embedding of `SlotGameCapture.start_capture`.  `proxyOk` is whether
`proxy_manager.start()` succeeds (certificate provisioning happens
inside it and any failure there surfaces as the same `ProxyError`),
`shotOk` whether creating the screenshot task succeeds.  The code sets
`_running = True` before starting any collaborator and never resets it
on failure; on a screenshot failure it stops the already-started proxy
before raising. -/
def start_capture (st : SessionState) (proxyOk shotOk : Bool) : SessionState × Option StartErr :=
  if st.running then (st, some .alreadyRunning)
  else
    let st1 := { st with running := true }
    if proxyOk = false then (st1, some .proxyErr)
    else
      let st2 := { st1 with proxyStarted := true }
      if shotOk = false then ({ st2 with proxyStarted := false }, some .screenshotErr)
      else ({ st2 with screenshotActive := true }, none)

/-- Outcome of the stop-time drain of `SlotGameCapture._cleanup`: the
records handed to the broker in order (publish attempts), and the
records whose publish raised, appended to the failed-capture list. -/
structure CleanupOut where
  attempts : List CaptureData
  failed : List CaptureData
deriving Repr, DecidableEq

/-- Embedding of the `while self.captures:` loop of
`SlotGameCapture._cleanup`: pop the front record, attempt to publish it
(`ok` tells whether the broker call succeeds), and on failure store it
via `_store_failed_capture`; the loop itself never raises. -/
def cleanupLoop (ok : CaptureData → Bool) (acc : CleanupOut) : List CaptureData → CleanupOut
  | [] => acc
  | c :: rest =>
      cleanupLoop ok
        { attempts := acc.attempts ++ [c],
          failed := if ok c then acc.failed else acc.failed ++ [c] }
        rest

/-- Embedding of the drain iteration of
`SlotGameCapture._process_captures`: while records are pending, pop the
front one and publish it; the accumulator lists the records handed to
the broker in order. -/
def processCaptures (published : List CaptureData) : List CaptureData → List CaptureData
  | [] => published
  | c :: rest => processCaptures (published ++ [c]) rest

/-- Embedding of `SlotGameCapture.stop_capture`.  If `_running` is
false the call logs and returns.  Otherwise `_running` is cleared and
the proxy stop, screenshot stop and `_cleanup` run in order; a failure
of either stop is wrapped and re-raised as a `CaptureError`, skipping
the later steps, while publish failures inside `_cleanup` are only
logged and stored on the failed-capture list. -/
def stop_capture (st : SessionState) (proxyStopOk shotStopOk : Bool) (ok : CaptureData → Bool) : SessionState × Option StopErr :=
  if st.running = false then (st, none)
  else
    let st1 := { st with running := false }
    if proxyStopOk = false then (st1, some .captureErr)
    else
      let st2 := { st1 with proxyStarted := false }
      if shotStopOk = false then (st2, some .captureErr)
      else
        let st3 := { st2 with screenshotActive := false }
        let out := cleanupLoop ok { attempts := [], failed := [] } st3.captures
        ({ st3 with captures := [], failedCaptures := st3.failedCaptures ++ out.failed }, none)

/-- Idle session with no collaborator started and empty queues. -/
def idleClean : SessionState :=
  { running := false, proxyStarted := false, screenshotActive := false, captures := [], failedCaptures := [] }

/-- Running session with both collaborators started and empty queues. -/
def runningClean : SessionState :=
  { running := true, proxyStarted := true, screenshotActive := true, captures := [], failedCaptures := [] }

/-- Trace of one more valid request event than the default
`max_capture_queue` allows. -/
def overflowTrace : List ProxyEvent :=
  (List.range (max_capture_queue + 1)).map fun i => ProxyEvent.request [("id", toString i)] none i

/-- Per-record invariant maintained by the handlers: a record seeded by
a websocket event carries the empty dict as its `request_data`, and a
record seeded by a request carries the (necessarily non-empty)
validated request dict. -/
def seededOk (r : CaptureData) : Prop :=
  (r.websocket_data.isSome = true → r.request_data = []) ∧
  (r.websocket_data = none → r.request_data ≠ [])

/-- Constant-luminance test image used as a concrete witness. -/
def solidImage : GrayImage := { width := 120, height := 110, pix := fun _ _ => 7 }

/-- Non-constant test image of the minimum accepted dimensions. -/
def stripedImage : GrayImage := { width := 100, height := 100, pix := fun x _ => x }

theorem processCaptures_eq (acc q : List CaptureData) :
    processCaptures acc q = acc ++ q := by
  induction q generalizing acc with
  | nil => simp [processCaptures]
  | cons c rest ih => simp [processCaptures, ih]

theorem cleanupLoop_attempts (ok : CaptureData → Bool) (acc : CleanupOut) (q : List CaptureData) :
    (cleanupLoop ok acc q).attempts = acc.attempts ++ q := by
  induction q generalizing acc with
  | nil => simp [cleanupLoop]
  | cons c rest ih => simp [cleanupLoop, ih]

theorem cleanupLoop_failed (ok : CaptureData → Bool) (acc : CleanupOut) (q : List CaptureData) :
    (cleanupLoop ok acc q).failed = acc.failed ++ q.filter (fun c => ok c = false) := by
  induction q generalizing acc with
  | nil => simp [cleanupLoop]
  | cons c rest ih =>
    by_cases h : ok c
    · simp [cleanupLoop, ih, h]
    · simp only [cleanupLoop, ih, Bool.not_eq_true] at *
      simp [h, List.filter]

/-- C5: within one session the records are handed to the broker client in
exactly the order they were enqueued, both by the running drain loop of
`_process_captures` and by the stop-time drain of `_cleanup` (where the
publish attempts happen in queue order whatever the broker outcomes are). -/
theorem C5_fifo_delivery (q : List CaptureData) (ok : CaptureData → Bool) :
    processCaptures [] q = q ∧
    (cleanupLoop ok { attempts := [], failed := [] } q).attempts = q := by
  constructor
  · simpa using processCaptures_eq [] q
  · simpa using cleanupLoop_attempts ok { attempts := [], failed := [] } q

/-- C7: with no caller-supplied session id, the generated id is a pure
function of casino name, game name and start time, equal to the string
casinoName-gameName-YYYYMMDD-HHMMSS with zero-padded calendar fields, so
two generations with the same fixed start time produce the same id. -/
theorem C7_session_id_format (c g : String) (t : PyDateTime) :
    generate_session_id c g t =
      c ++ "-" ++ g ++ "-" ++
        (padZero 4 t.year ++ padZero 2 t.month ++ padZero 2 t.day ++ "-" ++
         padZero 2 t.hour ++ padZero 2 t.minute ++ padZero 2 t.second) := by
  simp [generate_session_id, sessionIdFormat, strftime, strftimeDirective,
    String.singleton, String.append_assoc]
  rfl

theorem foldl_min_le_init (l : List Nat) (p : Nat) : l.foldl min p ≤ p := by
  induction l generalizing p with
  | nil => exact le_refl p
  | cons x xs ih => exact le_trans (ih (min p x)) (min_le_left p x)

theorem foldl_min_le_of_mem (l : List Nat) (p x : Nat) (hx : x ∈ l) : l.foldl min p ≤ x := by
  induction l generalizing p with
  | nil => cases hx
  | cons y ys ih =>
    rcases List.mem_cons.1 hx with h | h
    · subst h
      exact le_trans (foldl_min_le_init ys (min p x)) (min_le_right p x)
    · exact ih (min p y) h

theorem le_foldl_min (l : List Nat) (p c : Nat) (hp : c ≤ p) (hl : ∀ x ∈ l, c ≤ x) :
    c ≤ l.foldl min p := by
  induction l generalizing p with
  | nil => exact hp
  | cons x xs ih =>
    exact ih (min p x) (le_min hp (hl x (List.mem_cons_self x xs)))
      (fun y hy => hl y (List.mem_cons_of_mem x hy))

theorem init_le_foldl_max (l : List Nat) (p : Nat) : p ≤ l.foldl max p := by
  induction l generalizing p with
  | nil => exact le_refl p
  | cons x xs ih => exact le_trans (le_max_left p x) (ih (max p x))

theorem mem_le_foldl_max (l : List Nat) (p x : Nat) (hx : x ∈ l) : x ≤ l.foldl max p := by
  induction l generalizing p with
  | nil => cases hx
  | cons y ys ih =>
    rcases List.mem_cons.1 hx with h | h
    · subst h
      exact le_trans (le_max_right p x) (init_le_foldl_max ys (max p x))
    · exact ih (max p y) h

theorem foldl_max_le (l : List Nat) (p c : Nat) (hp : p ≤ c) (hl : ∀ x ∈ l, x ≤ c) :
    l.foldl max p ≤ c := by
  induction l generalizing p with
  | nil => exact hp
  | cons x xs ih =>
    exact ih (max p x) (max_le hp (hl x (List.mem_cons_self x xs)))
      (fun y hy => hl y (List.mem_cons_of_mem x hy))

theorem getextrema_ne_of_two (img : GrayImage) (a b : Nat)
    (ha : a ∈ pixList img) (hb : b ∈ pixList img) (hab : a ≠ b) :
    (getextrema img).1 ≠ (getextrema img).2 := by
  unfold getextrema
  cases h : pixList img with
  | nil => rw [h] at ha; cases ha
  | cons p rest =>
    rw [h] at ha hb
    intro heq
    have bound : ∀ x ∈ p :: rest, rest.foldl min p ≤ x ∧ x ≤ rest.foldl max p := by
      intro x hx
      rcases List.mem_cons.1 hx with hx | hx
      · subst hx
        exact ⟨foldl_min_le_init rest x, init_le_foldl_max rest x⟩
      · exact ⟨foldl_min_le_of_mem rest p x hx, mem_le_foldl_max rest p x hx⟩
    have h1 := bound a ha
    have h2 := bound b hb
    simp only at heq
    omega

theorem validate_screenshot_true_of_two (img : GrayImage) (a b : Nat)
    (hw : 100 ≤ img.width) (hh : 100 ≤ img.height)
    (ha : a ∈ pixList img) (hb : b ∈ pixList img) (hab : a ≠ b) :
    validate_screenshot img = true := by
  unfold validate_screenshot
  have hw' : ¬ img.width < 100 := by omega
  have hh' : ¬ img.height < 100 := by omega
  simp [hw', hh', getextrema_ne_of_two img a b ha hb hab]

/-- C8: an image of constant pixel luminance is rejected by
`_validate_screenshot` whatever its dimensions are: small images fail
the dimension check and all others fail the luminance-extrema check. -/
theorem C8_constant_luminance_rejected (img : GrayImage) (c : Nat)
    (hc : ∀ x y, x < img.width → y < img.height → img.pix x y = c) :
    validate_screenshot img = false := by
  unfold validate_screenshot
  by_cases hd : img.width < 100 || img.height < 100
  · simp [hd]
  · have hdims : ¬ img.width < 100 ∧ ¬ img.height < 100 := by
      constructor <;> (intro h; apply hd; simp [h])
    have hmem : ∀ x ∈ pixList img, x = c := by
      intro x hx
      simp only [pixList, List.mem_flatMap, List.mem_map, List.mem_range] at hx
      obtain ⟨y, hy, x0, hx0, rfl⟩ := hx
      exact hc x0 y hx0 hy
    cases h : pixList img with
    | nil =>
      exfalso
      have hmem00 : img.pix 0 0 ∈ pixList img := by
        simp only [pixList, List.mem_flatMap, List.mem_map, List.mem_range]
        exact ⟨0, by omega, 0, by omega, rfl⟩
      rw [h] at hmem00
      cases hmem00
    | cons p rest =>
      have hp : p = c := hmem p (h ▸ List.mem_cons_self p rest)
      have hrest : ∀ x ∈ rest, x = c := fun x hx => hmem x (h ▸ List.mem_cons_of_mem p hx)
      have hmin : rest.foldl min p = c :=
        le_antisymm (hp ▸ foldl_min_le_init rest p)
          (le_foldl_min rest p c (le_of_eq hp.symm) (fun x hx => le_of_eq (hrest x hx).symm))
      have hmax : rest.foldl max p = c :=
        le_antisymm (foldl_max_le rest p c (le_of_eq hp) (fun x hx => le_of_eq (hrest x hx)))
          (hp ▸ init_le_foldl_max rest p)
      simp [getextrema, h, hmin, hmax, hd]

/-- Witness for C8 at a concrete 120 by 110 image of constant luminance 7. -/
theorem C8_witness : validate_screenshot solidImage = false :=
  C8_constant_luminance_rejected solidImage 7 (fun _ _ _ _ => rfl)

/-- C6: for an active screenshot manager, a first successful capture at
time t0 returns a path and records t0; a second call strictly inside the
throttle window returns nothing whatever the grab or save would have
done, and leaves the state unchanged; a third call at least throttle_ms
after t0 captures again. -/
theorem C6_throttle_window (T L t0 t1 t2 : Int) (img1 img3 : GrayImage) (p1 p2 p3 : String)
    (raw2 : Except PyError GrayImage) (save2 : Except PyError Unit)
    (h0 : T ≤ t0 - L) (hv1 : validate_screenshot img1 = true)
    (h1 : t1 - t0 < T) (h2 : T ≤ t2 - t0) (hv3 : validate_screenshot img3 = true) :
    capture { throttle_ms := T, last_capture := L, running := true } t0 (Except.ok img1) (Except.ok ()) p1
      = Except.ok (some p1, { throttle_ms := T, last_capture := t0, running := true }) ∧
    capture { throttle_ms := T, last_capture := t0, running := true } t1 raw2 save2 p2
      = Except.ok (none, { throttle_ms := T, last_capture := t0, running := true }) ∧
    capture { throttle_ms := T, last_capture := t0, running := true } t2 (Except.ok img3) (Except.ok ()) p3
      = Except.ok (some p3, { throttle_ms := T, last_capture := t2, running := true }) := by
  have hn0 : ¬ (t0 - L < T) := not_lt.mpr h0
  have hn2 : ¬ (t2 - t0 < T) := not_lt.mpr h2
  refine ⟨?_, ?_, ?_⟩
  · simp [capture, Except.bind, hn0, hv1]
  · simp [capture, h1]
  · simp [capture, Except.bind, hn2, hv3]

theorem stripedImage_valid : validate_screenshot stripedImage = true := by
  apply validate_screenshot_true_of_two stripedImage 0 1
  · simp [stripedImage]
  · simp [stripedImage]
  · simp only [pixList, stripedImage, List.mem_flatMap, List.mem_map, List.mem_range]
    exact ⟨0, by omega, 0, by omega, rfl⟩
  · simp only [pixList, stripedImage, List.mem_flatMap, List.mem_map, List.mem_range]
    exact ⟨0, by omega, 1, by omega, rfl⟩
  · decide

/-- Witness for C6: throttle 500 ms, successful captures at 1000 and
1600, a throttled call at 1300 whose grab and save would both have
raised. -/
theorem C6_witness :
    capture { throttle_ms := 500, last_capture := 0, running := true } 1000 (Except.ok stripedImage) (Except.ok ()) "a"
      = Except.ok (some "a", { throttle_ms := 500, last_capture := 1000, running := true }) ∧
    capture { throttle_ms := 500, last_capture := 1000, running := true } 1300 (Except.error (PyError.err "grab")) (Except.error (PyError.err "save")) "b"
      = Except.ok (none, { throttle_ms := 500, last_capture := 1000, running := true }) ∧
    capture { throttle_ms := 500, last_capture := 1000, running := true } 1600 (Except.ok stripedImage) (Except.ok ()) "c"
      = Except.ok (some "c", { throttle_ms := 500, last_capture := 1600, running := true }) :=
  C6_throttle_window 500 0 1000 1300 1600 stripedImage stripedImage "a" "b" "c"
    (Except.error (PyError.err "grab")) (Except.error (PyError.err "save"))
    (by decide) stripedImage_valid (by decide) (by decide) stripedImage_valid

/-- C9: an individual capture() call never lets an exception escape:
whatever the manager state, the clock, the raw grab outcome and the file
save outcome are, the call returns a value, and each failure condition
(inactive manager, throttled call, raw-capture exception, validation
failure, write failure) yields the empty result with the state
unchanged. -/
theorem C9_capture_never_raises (st : ShotState) (now : Int) (raw : Except PyError GrayImage)
    (save : Except PyError Unit) (path : String) :
    (∃ r, capture st now raw save path = Except.ok r) ∧
    (st.running = false → capture st now raw save path = Except.ok (none, st)) ∧
    (now - st.last_capture < st.throttle_ms → capture st now raw save path = Except.ok (none, st)) ∧
    (∀ e, raw = Except.error e → capture st now raw save path = Except.ok (none, st)) ∧
    (∀ img, raw = Except.ok img → validate_screenshot img = false → capture st now raw save path = Except.ok (none, st)) ∧
    (∀ e, save = Except.error e → capture st now raw save path = Except.ok (none, st)) := by
  by_cases hr : st.running = false
  · simp [capture, hr]
  · by_cases ht : now - st.last_capture < st.throttle_ms
    · simp [capture, hr, ht]
    · cases raw with
      | error e => simp [capture, hr, ht, Except.bind]
      | ok img =>
        by_cases hv : validate_screenshot img = false
        · simp [capture, hr, ht, hv, Except.bind]
        · cases save with
          | error e => simp [capture, hr, ht, hv, Except.bind]
          | ok u => simp [capture, hr, ht, hv, Except.bind]

/-- Witness for C9: an inactive manager handed a raw grab that would
have raised still returns the empty result. -/
theorem C9_witness :
    capture { throttle_ms := 500, last_capture := 0, running := false } 0
      (Except.error (PyError.err "grab")) (Except.ok ()) "p"
      = Except.ok (none, { throttle_ms := 500, last_capture := 0, running := false }) :=
  (C9_capture_never_raises { throttle_ms := 500, last_capture := 0, running := false } 0
    (Except.error (PyError.err "grab")) (Except.ok ()) "p").2.1 rfl

theorem setLastResponse_append (pre : List CaptureData) (lst : CaptureData) (d : Dict) :
    setLastResponse (pre ++ [lst]) d = pre ++ [{ lst with response_data := some d }] := by
  induction pre with
  | nil => rfl
  | cons p pre ih =>
    cases hpre : pre ++ [lst] with
    | nil => exact absurd hpre (by simp)
    | cons q qs =>
      calc setLastResponse ((p :: pre) ++ [lst]) d
          = setLastResponse (p :: q :: qs) d := by rw [List.cons_append, hpre]
        _ = p :: setLastResponse (q :: qs) d := rfl
        _ = p :: setLastResponse (pre ++ [lst]) d := by rw [hpre]
        _ = p :: (pre ++ [{ lst with response_data := some d }]) := by rw [ih]
        _ = (p :: pre) ++ [{ lst with response_data := some d }] := rfl

set_option maxRecDepth 4000 in
/-- C1 evaluation: the request handler of the code performs no capacity
check, so one more valid request event than `max_capture_queue` leaves
the queue strictly longer than the configured bound, with nothing
evicted. -/
theorem C1_queue_bound_unenforced :
    max_capture_queue < (runEvents initialState overflowTrace).captures.length := by
  decide

/-- Counterexample for C2: after one request and two responses with no
intervening request, the single record carries the second response, so
the first attachment was modified again (last-writer-wins, not
at-most-once). -/
theorem C2_counterexample :
    (runEvents initialState
      [ProxyEvent.request [("id", "1")] none 0,
       ProxyEvent.response [("status", "200")],
       ProxyEvent.response [("status", "500")]]).captures
      = [{ timestamp := 0, request_data := [("id", "1")], response_data := some [("status", "500")],
           screenshot_path := none, websocket_data := none }] ∧
    ([("status", "500")] : Dict) ≠ [("status", "200")] := by
  constructor
  · rfl
  · decide

/-- C2 amended: a valid response event always overwrites the
`response_data` of the most recently enqueued record still in the
queue, whatever that field previously held. -/
theorem C2_amended_last_writer_wins (st : CaptureState) (pre : List CaptureData)
    (lst : CaptureData) (d : Dict)
    (hq : st.captures = pre ++ [lst]) (hr : st.running = true) (hd : d ≠ []) :
    (handle_response st d).captures = pre ++ [{ lst with response_data := some d }] := by
  have hne : st.captures ≠ [] := by simp [hq]
  simp only [handle_response, hr, hne, hd, if_false, if_neg]
  simp [hq, setLastResponse_append]

/-- Witness for C2 amended: a record whose response was already attached
is overwritten by the next valid response. -/
theorem C2_amended_witness :
    (handle_response
      { captures := [{ timestamp := 5, request_data := [("id", "9")], response_data := some [("old", "1")],
                       screenshot_path := none, websocket_data := none }],
        running := true }
      [("new", "2")]).captures
      = [{ timestamp := 5, request_data := [("id", "9")], response_data := some [("new", "2")],
           screenshot_path := none, websocket_data := none }] :=
  C2_amended_last_writer_wins _ []
    { timestamp := 5, request_data := [("id", "9")], response_data := some [("old", "1")],
      screenshot_path := none, websocket_data := none }
    [("new", "2")] rfl rfl (by decide)

/-- Counterexample for C3: when the proxy fails to start from a clean
idle session, the session is left flagged as running (not Idle) and a
second start() is rejected as already running. -/
theorem C3_counterexample :
    (start_capture idleClean false true).1.running = true ∧
    (start_capture (start_capture idleClean false true).1 true true).2
      = some StartErr.alreadyRunning := by
  decide

/-- C3 amended: a component failure during start() raises the first
failure and stops whichever component had already started, but the
session keeps its running flag set instead of returning to Idle, so a
subsequent start() is rejected as already running and a subsequent
stop() performs a full stop rather than being a no-op. -/
theorem C3_amended_rollback_but_not_idle (st : SessionState) (proxyOk shotOk : Bool)
    (hr : st.running = false) (hp : st.proxyStarted = false) (hs : st.screenshotActive = false) :
    (proxyOk = false →
      start_capture st proxyOk shotOk = ({ st with running := true }, some StartErr.proxyErr)) ∧
    (proxyOk = true → shotOk = false →
      start_capture st proxyOk shotOk
        = ({ st with running := true, proxyStarted := false }, some StartErr.screenshotErr)) ∧
    (∀ st2 e, start_capture st proxyOk shotOk = (st2, some e) →
      st2.proxyStarted = false ∧ st2.screenshotActive = false ∧ st2.running = true ∧
      (start_capture st2 true true).2 = some StartErr.alreadyRunning ∧
      (stop_capture st2 true true (fun _ => true)).1.running = false) := by
  refine ⟨?_, ?_, ?_⟩
  · intro hpo
    subst hpo
    simp [start_capture, hr]
  · intro hpo hso
    subst hpo
    subst hso
    simp [start_capture, hr]
  · intro st2 e heq
    by_cases hpo : proxyOk = false
    · subst hpo
      have hev : start_capture st false shotOk = ({ st with running := true }, some StartErr.proxyErr) := by
        simp [start_capture, hr]
      rw [hev] at heq
      have h1 := congrArg Prod.fst heq
      dsimp only [] at h1
      subst h1
      refine ⟨by simp [hp], by simp [hs], by simp, by simp [start_capture], by simp [stop_capture]⟩
    · have hpo2 : proxyOk = true := by revert hpo; cases proxyOk <;> simp
      subst hpo2
      by_cases hso : shotOk = false
      · subst hso
        have hev : start_capture st true false
            = ({ st with running := true, proxyStarted := false }, some StartErr.screenshotErr) := by
          simp [start_capture, hr]
        rw [hev] at heq
        have h1 := congrArg Prod.fst heq
        dsimp only [] at h1
        subst h1
        refine ⟨by simp, by simp [hs], by simp, by simp [start_capture], by simp [stop_capture]⟩
      · have hso2 : shotOk = true := by revert hso; cases shotOk <;> simp
        subst hso2
        simp [start_capture, hr] at heq

/-- Witness for C3 amended at a concrete idle session whose proxy start
fails. -/
theorem C3_witness :
    start_capture idleClean false true
      = ({ idleClean with running := true }, some StartErr.proxyErr) :=
  (C3_amended_rollback_but_not_idle idleClean false true rfl rfl rfl).1 rfl

/-- Counterexample for C4: stop() on a running session whose proxy stop
fails raises the wrapped CaptureError to the caller instead of
swallowing it. -/
theorem C4_counterexample :
    (stop_capture runningClean false true (fun _ => true)).2 = some StopErr.captureErr := by
  decide

/-- C4 amended: stop() from a non-running session is a no-op that does
not raise, and when both component stops succeed the stop-time drain
never raises, appending every failed delivery to the failed-capture
list; but a proxy or screenshot stop failure is wrapped and raised as a
CaptureError. -/
theorem C4_amended_stop_behavior (st : SessionState) (proxyStopOk shotStopOk : Bool)
    (ok : CaptureData → Bool) :
    (st.running = false → stop_capture st proxyStopOk shotStopOk ok = (st, none)) ∧
    (st.running = true →
      (stop_capture st true true ok).2 = none ∧
      (stop_capture st true true ok).1.failedCaptures
        = st.failedCaptures ++ st.captures.filter (fun c => ok c = false)) ∧
    (st.running = true → (proxyStopOk = false ∨ shotStopOk = false) →
      (stop_capture st proxyStopOk shotStopOk ok).2 = some StopErr.captureErr) := by
  refine ⟨?_, ?_, ?_⟩
  · intro h
    simp [stop_capture, h]
  · intro h
    constructor
    · simp [stop_capture, h]
    · simp [stop_capture, h, cleanupLoop_failed]
  · intro h hor
    rcases hor with h1 | h1
    · subst h1
      simp [stop_capture, h]
    · subst h1
      by_cases hp2 : proxyStopOk = false
      · subst hp2
        simp [stop_capture, h]
      · have hp3 : proxyStopOk = true := by revert hp2; cases proxyStopOk <;> simp
        subst hp3
        simp [stop_capture, h]

/-- Witness for C4 amended: stop() on an idle session is a no-op. -/
theorem C4_witness :
    stop_capture idleClean true true (fun _ => true) = (idleClean, none) :=
  (C4_amended_stop_behavior idleClean true true (fun _ => true)).1 rfl

theorem mem_setLastResponse (l : List CaptureData) (d : Dict) (r : CaptureData)
    (h : r ∈ setLastResponse l d) :
    ∃ r0 ∈ l, r.request_data = r0.request_data ∧ r.websocket_data = r0.websocket_data := by
  induction l with
  | nil => cases h
  | cons c rest ih =>
    cases rest with
    | nil =>
      have hr : r = { c with response_data := some d } := by
        simpa [setLastResponse] using h
      exact ⟨c, List.mem_cons_self c [], by simp [hr], by simp [hr]⟩
    | cons q qs =>
      have h2 : r ∈ c :: setLastResponse (q :: qs) d := h
      rcases List.mem_cons.1 h2 with hr | hr
      · exact ⟨c, List.mem_cons_self c (q :: qs), by simp [hr], by simp [hr]⟩
      · obtain ⟨r0, hr0, hreq, hws⟩ := ih hr
        exact ⟨r0, List.mem_cons_of_mem c hr0, hreq, hws⟩

theorem stepEvent_seededOk (st : CaptureState) (e : ProxyEvent)
    (h : ∀ r ∈ st.captures, seededOk r) :
    ∀ r ∈ (stepEvent st e).captures, seededOk r := by
  cases e with
  | request d shot t =>
    intro r hr
    simp only [stepEvent] at hr
    unfold handle_request at hr
    split at hr
    · exact h r hr
    · split at hr
      · exact h r hr
      · rename_i hrun hd
        dsimp only at hr
        rcases List.mem_append.1 hr with hm | hm
        · exact h r hm
        · have hrm : r = { timestamp := t, request_data := d, response_data := none, screenshot_path := shot, websocket_data := none } := List.mem_singleton.1 hm
          subst hrm
          exact ⟨by simp, fun _ => hd⟩
  | response d =>
    intro r hr
    simp only [stepEvent] at hr
    unfold handle_response at hr
    split at hr
    · exact h r hr
    · split at hr
      · exact h r hr
      · split at hr
        · exact h r hr
        · dsimp only at hr
          obtain ⟨r0, hr0, hreq, hws⟩ := mem_setLastResponse st.captures d r hr
          obtain ⟨h1, h2⟩ := h r0 hr0
          constructor
          · intro hs2
            rw [hreq]
            exact h1 (by rw [← hws]; exact hs2)
          · intro hs2
            rw [hreq]
            exact h2 (by rw [← hws]; exact hs2)
  | websocket d shot t =>
    intro r hr
    simp only [stepEvent] at hr
    unfold handle_websocket at hr
    split at hr
    · exact h r hr
    · split at hr
      · exact h r hr
      · dsimp only at hr
        rcases List.mem_append.1 hr with hm | hm
        · exact h r hm
        · have hrm : r = { timestamp := t, request_data := [], response_data := none, screenshot_path := shot, websocket_data := some d } := List.mem_singleton.1 hm
          subst hrm
          exact ⟨fun _ => rfl, fun hcc => absurd hcc (Option.some_ne_none d)⟩

theorem runEvents_seededOk (evs : List ProxyEvent) (st : CaptureState)
    (h : ∀ r ∈ st.captures, seededOk r) :
    ∀ r ∈ (runEvents st evs).captures, seededOk r := by
  induction evs generalizing st with
  | nil => exact h
  | cons e evs ih => exact ih (stepEvent st e) (stepEvent_seededOk st e h)

/-- C10: after any event trace on a fresh running session, every record
in the queue carries its (non-optional) `request_data` field in a state
that marks its origin: records seeded by a websocket event hold the
empty dict there, and records seeded by a request hold the validated
non-empty request dict, so origin is not signalled by field absence. -/
theorem C10_request_data_always_present (evs : List ProxyEvent) (r : CaptureData)
    (hr : r ∈ (runEvents initialState evs).captures) :
    (r.websocket_data.isSome = true → r.request_data = []) ∧
    (r.websocket_data = none → r.request_data ≠ []) :=
  runEvents_seededOk evs initialState (by simp [initialState]) r hr

/-- Witness for C10: the record created by a single websocket event
carries the empty dict as its request data. -/
theorem C10_witness :
    (CaptureData.mk 7 [] none none (some [("type", "spin")])).request_data = [] :=
  (C10_request_data_always_present [ProxyEvent.websocket [("type", "spin")] none 7]
    (CaptureData.mk 7 [] none none (some [("type", "spin")])) (by decide)).1 rfl
